import Mathlib

/-!
Verification of the ETL transformation pipeline of the capstone notebook
(`capstone_project.ipynb`) against its natural-language specification.

The notebook's dataframe transformations are embedded shallowly:

* Spark/pandas tables become Lean structures holding lists of rows;
* three-valued dataframe cells (a value, SQL null, or floating NaN) become the
  inductive `SCell`; nullable pandas cells become `Option` values;
* calendar dates are embedded as integer day numbers (days since 1970-01-01)
  together with an explicit proleptic-Gregorian rendering `civilFromDays`,
  which is the calendar Python's `datetime` implements;
* every transformation is a pure, executable function from input tables to
  output tables, mirroring the notebook cell that performs it.
-/

/-! ## Calendar arithmetic (Immigration Cleaner, date conversion cell)

The notebook converts SAS day offsets via
`datetime.strptime('1960-01-01', "%Y-%m-%d") + timedelta(days)`.
A date is embedded as its day number relative to 1970-01-01. -/

/-- Day number of 1960-01-01 (ten years before the 1970 base, three of them
leap years: 3653 days). -/
def epochDays1960 : Int := -3653

/-- Embedding of the notebook's `date_add_`: the fixed 1960-01-01 epoch plus
the integer day offset. -/
def date_add_ (days : Int) : Int := epochDays1960 + days

/-- Render a day number (days since 1970-01-01) as a proleptic-Gregorian
(year, month, day) triple; this is the calendar arithmetic of Python's
`datetime` + `timedelta`. -/
def civilFromDays (z0 : Int) : Int × Int × Int :=
  let z : Int := z0 + 719468
  let era : Int := if 0 ≤ z then z / 146097 else (z - 146096) / 146097
  let doe : Int := z - era * 146097
  let yoe : Int := (doe - doe / 1460 + doe / 36524 - doe / 146096) / 365
  let doy : Int := doe - (365 * yoe + yoe / 4 - yoe / 100)
  let mp : Int := (5 * doy + 2) / 153
  let d : Int := doy - (153 * mp + 2) / 5 + 1
  let m : Int := mp + (if mp < 10 then 3 else -9)
  (yoe + era * 400 + (if m ≤ 2 then 1 else 0), m, d)

/-! ## Spark immigration table (cells 14-17 of the notebook)

A Spark cell of the immigration table is a numeric value, a SQL null, or a
floating-point NaN (the two missing flavours behave differently in Spark
aggregates, which matters below); after the date-conversion step a cell can
also hold a calendar date. -/

inductive SCell where
  | val : ℚ → SCell
  | null : SCell
  | nan : SCell
  | date : Int → SCell
deriving DecidableEq

/-- A Spark dataframe: named columns and rows of cells (row `r` is aligned
with `cols` positionally). -/
structure SasTable where
  cols : List String
  rows : List (List SCell)
deriving DecidableEq

/-- Cell of a row at column index `j` (null when out of range). -/
def cellAt (r : List SCell) (j : Nat) : SCell := r.getD j SCell.null

/-- Index of a named column. -/
def colIdx (tbl : SasTable) (name : String) : Nat :=
  tbl.cols.findIdx (fun c => c = name)

/-- Column of the table by position. -/
def colAt (tbl : SasTable) (j : Nat) : List SCell :=
  tbl.rows.map (fun r => cellAt r j)

/-- Column of the table by name (`df[name]`). -/
def getCol (tbl : SasTable) (name : String) : List SCell :=
  colAt tbl (colIdx tbl name)

/-- Spark's `isnan`: true only on NaN; in particular `isnan(null) = false`
(Spark's `IsNaN` expression is non-nullable and returns false on null). -/
def isnanCell : SCell → Bool
  | SCell.nan => true
  | _ => false

/-- Spark's `isNull`. -/
def isNullCell : SCell → Bool
  | SCell.null => true
  | _ => false

/-- Spark's `when(isnan(c) | col(c).isNull(), c)` with no `otherwise`: the
cell itself where the condition holds, null elsewhere. -/
def whenMissingSelf (c : SCell) : SCell :=
  if isnanCell c || isNullCell c then c else SCell.null

/-- Spark's `count` aggregate: counts the non-null entries (NaN is a
non-null double value and is counted). -/
def sparkCount (l : List SCell) : Nat :=
  (l.filter (fun c => ¬ isNullCell c)).length

/-- The notebook's per-column quantity
`count(when(isnan(c) | col(c).isNull(), c)) / df_sas.count()`
(cell 14, `df_sas_nulls`). Because `when` yields the cell itself, a null cell
makes the `when` expression null and `count` skips it: only NaN cells are
ever counted. -/
def sasNullFrac (tbl : SasTable) (j : Nat) : ℚ :=
  (sparkCount ((colAt tbl j).map whenMissingSelf) : ℚ) / (tbl.rows.length : ℚ)

/-- Fraction of null-or-NaN cells of column `j` over the original table, as
the spec describes the drop criterion ("fraction of null-or-NaN values").
This is the spec-side quantity to compare with `sasNullFrac`. -/
def specNullFrac (tbl : SasTable) (j : Nat) : ℚ :=
  (((colAt tbl j).filter (fun c => isNullCell c || isnanCell c)).length : ℚ) /
    (tbl.rows.length : ℚ)

/-- The body of the notebook's `empty_cols` loop (cell 14), walking the
column names with their positions: append a name when its computed fraction
strictly exceeds 0.9. -/
def empty_cols_go (tbl : SasTable) : Nat → List String → List String
  | _, [] => []
  | j, c :: cs =>
    if (9 : ℚ) / 10 < sasNullFrac tbl j then c :: empty_cols_go tbl (j + 1) cs
    else empty_cols_go tbl (j + 1) cs

/-- The notebook's `empty_cols` (cell 14): the names of the columns whose
computed fraction strictly exceeds 0.9, in column order. Column names of the
parquet source are distinct, so the by-name lookup of the loop is the
by-position lookup here. -/
def empty_cols (tbl : SasTable) : List String := empty_cols_go tbl 0 tbl.cols

/-- `df.drop(*names)`: remove the named columns (and their cells). -/
def dropCols (tbl : SasTable) (names : List String) : SasTable :=
  ⟨tbl.cols.filter (fun c => ¬ c ∈ names),
   tbl.rows.map (fun r => ((tbl.cols.zip r).filter (fun p => ¬ p.1 ∈ names)).map Prod.snd)⟩

/-- Cell 14's `df_sas_clean_a = df_sas.drop(*empty_cols)`. -/
def df_sas_clean_a (tbl : SasTable) : SasTable := dropCols tbl (empty_cols tbl)

/-- Missing for `dropna` purposes: Spark's `DataFrameNaFunctions.drop`
treats both null and NaN as missing. -/
def isMissingCell (c : SCell) : Bool := isNullCell c || isnanCell c

/-- Cell 15's `df_sas_clean_b = df_sas_clean_a.dropna(how='all', subset=['cicid'])`:
keep exactly the rows whose `cicid` cell is not missing. Nothing in this cell
(or any later one) removes duplicate `cicid` values. -/
def dropnaCicid (tbl : SasTable) : SasTable :=
  ⟨tbl.cols,
   tbl.rows.filter (fun r => ¬ isMissingCell (cellAt r (colIdx tbl "cicid")))⟩

/-- The fixed list of columns cast to integer in cell 16. -/
def castIntCols : List String :=
  ["cicid", "i94yr", "i94mon", "i94cit", "i94res", "arrdate", "i94mode",
   "i94bir", "count", "i94visa", "depdate", "biryear", "admnum"]

/-- Truncation toward zero, the double-to-int conversion of a (non-ANSI)
Spark `cast('integer')` on in-range values. -/
def ratTrunc (q : ℚ) : Int := q.num / q.den

/-- Spark `cast('integer')` on one cell: truncate a value, keep null;
casting NaN yields 0 (Scala's `NaN.toInt`). -/
def castCellInt (c : SCell) : SCell :=
  match c with
  | SCell.val q => SCell.val (ratTrunc q : ℚ)
  | SCell.null => SCell.null
  | SCell.nan => SCell.val 0
  | SCell.date d => SCell.date d

/-- Cell 16's `df_sas_clean_c`: the thirteen `withColumn(..., cast('integer'))`
calls, applied cell-wise to the listed columns. -/
def df_sas_clean_c (tbl : SasTable) : SasTable :=
  ⟨tbl.cols,
   tbl.rows.map (fun r =>
     (tbl.cols.zip r).map (fun p => if p.1 ∈ castIntCols then castCellInt p.2 else p.2))⟩

/-- The `date_add_udf` applied to one cell: an integer day offset becomes the
calendar date `1960-01-01 + offset`. Null stays null (a null date cell of the
output DateType column); the udf is only ever forced on non-null offsets in
the concrete tables below. -/
def dateCell (c : SCell) : SCell :=
  match c with
  | SCell.val q => SCell.date (date_add_ (ratTrunc q))
  | c => c

/-- Cell 17's `df_sas_clean_d`: apply `date_add_udf` to the `arrdate` and
`depdate` columns. -/
def df_sas_clean_d (tbl : SasTable) : SasTable :=
  ⟨tbl.cols,
   tbl.rows.map (fun r =>
     (tbl.cols.zip r).map
       (fun p => if p.1 = "arrdate" ∨ p.1 = "depdate" then dateCell p.2 else p.2))⟩

/-- Cell 17's `df_sas_clean_e = df_sas_clean_d.drop('i94yr','i94mon')`. -/
def df_sas_clean_e (tbl : SasTable) : SasTable := dropCols tbl ["i94yr", "i94mon"]

/-- The whole Immigration Cleaner (cells 14-17): drop near-empty columns,
drop rows with missing `cicid`, cast, convert dates, drop year/month.
`df_immigration_dwh` is this output (cell 27). -/
def immigrationClean (tbl : SasTable) : SasTable :=
  df_sas_clean_e (df_sas_clean_d (df_sas_clean_c (dropnaCicid (df_sas_clean_a tbl))))

/-! ## SAS dictionary parser (cell 7 of the notebook)

Cell 7 reads `I94_SAS_Labels_Descriptions.SAS` with `readlines()` (each line
keeps its trailing newline) and slices fixed line ranges out of it. The value
cleaning is done with `clean_field`, which extracts a regular expression from
a column via `str.extract`, strips whitespace and uppercases. Each of the
five regexes used is embedded as an explicit scanner over the character list,
with `re.search` semantics (leftmost match, greedy with backtracking);
a failed search is `none` (pandas NaN). -/

/-- Regex `'([^']+)'` under `re.search`: the first single-quoted nonempty
run of non-quote characters (an opening quote, at least one non-quote
character, then a closing quote). -/
def extractQuoted : List Char → Option (List Char)
  | [] => none
  | c :: rest =>
    if c = '\'' then
      let seg := rest.takeWhile (fun d => d ≠ '\'')
      if seg.isEmpty then extractQuoted rest
      else if seg.length < rest.length then some seg else none
    else extractQuoted rest

/-- Regex `'([^']+)` under `re.search`: an opening quote followed by at
least one non-quote character; no closing quote required. -/
def extractAfterQuote : List Char → Option (List Char)
  | [] => none
  | c :: rest =>
    if c = '\'' then
      let seg := rest.takeWhile (fun d => d ≠ '\'')
      if seg.isEmpty then extractAfterQuote rest else some seg
    else extractAfterQuote rest

/-- Regex `([^']+)'` under `re.search`: a nonempty run of non-quote
characters immediately followed by a quote; the first such run. -/
def extractBeforeQuote : List Char → Option (List Char)
  | [] => none
  | c :: rest =>
    let seg := (c :: rest).takeWhile (fun d => d ≠ '\'')
    if seg.isEmpty then extractBeforeQuote rest
    else if seg.length < (c :: rest).length then some seg else none

/-- Regex `\s+([^']+)` under `re.search`: a nonempty whitespace run, then a
nonempty run of non-quote characters. Whitespace is itself a non-quote
character, so when the character after the greedy whitespace run is a quote
(or the string ends) the engine backtracks one whitespace character into the
capture. -/
def extractAfterWs : List Char → Option (List Char)
  | [] => none
  | c :: rest =>
    if c.isWhitespace then
      let ws := (c :: rest).takeWhile Char.isWhitespace
      let after := (c :: rest).drop ws.length
      match after with
      | d :: _ =>
        if d ≠ '\'' then some (after.takeWhile (fun e => e ≠ '\''))
        else if 2 ≤ ws.length then some [ws.getLastD ' ']
        else extractAfterWs rest
      | [] => if 2 ≤ ws.length then some [ws.getLastD ' '] else extractAfterWs rest
    else extractAfterWs rest

/-- Position of the last newline of a character list, if any. -/
def lastNewlineIdx (l : List Char) : Option Nat :=
  match l.reverse.findIdx? (fun d => d = '\n') with
  | some r => some (l.length - 1 - r)
  | none => none

/-- Regex `([^']+)\n` under `re.search`: a nonempty run of non-quote
characters followed by a newline. `[^']` also matches `\n`, so the greedy
run backtracks to end right before the last newline that precedes the first
quote. -/
def extractBeforeNewline : List Char → Option (List Char)
  | [] => none
  | c :: rest =>
    if c = '\'' then extractBeforeNewline rest
    else
      let seg := (c :: rest).takeWhile (fun d => d ≠ '\'')
      match lastNewlineIdx seg with
      | some j => if 1 ≤ j then some (seg.take j) else extractBeforeNewline rest
      | none => extractBeforeNewline rest

/-- Python's `str.strip()` on a character list: drop whitespace from both
ends. -/
def pyStrip (cs : List Char) : List Char :=
  ((cs.dropWhile Char.isWhitespace).reverse.dropWhile Char.isWhitespace).reverse

/-- Python's `str.upper()` on a character list (the data is ASCII). -/
def pyUpper (cs : List Char) : List Char := cs.map Char.toUpper

/-- The notebook's `clean_field` applied to one (nullable) cell: extract the
pattern, strip surrounding whitespace, uppercase; NaN propagates, and a
failed extraction is NaN. -/
def clean_field (ex : List Char → Option (List Char)) (v : Option String) : Option String :=
  (v.bind (fun s => ex s.toList)).map (fun cs => String.mk (pyUpper (pyStrip cs)))

/-- Split a character list at the first occurrence of a separator character
(none when the separator is absent). -/
def splitCharAux (sep : Char) : List Char → Option (List Char × List Char)
  | [] => none
  | c :: rest =>
    if c = sep then some ([], rest)
    else (splitCharAux sep rest).map (fun p => (c :: p.1, p.2))

/-- `pandas.Series.str.split(pat, n=1, expand=True)` on one cell, for a
single-character separator (the two separators the notebook uses are `=`
and `,`): the part before the first occurrence and, when the separator is
present, the part after it. -/
def splitFirst (sep : Char) (s : String) : String × Option String :=
  match splitCharAux sep s.toList with
  | none => (s, none)
  | some p => (String.mk p.1, some (String.mk p.2))

/-- Accumulate a decimal value over a digit run; fail at the first
non-digit. -/
def digitsGo : Nat → List Char → Option Nat
  | acc, [] => some acc
  | acc, c :: rest =>
    if c.isDigit then digitsGo (acc * 10 + (c.toNat - 48)) rest else none

/-- The decimal value of a nonempty all-digit run. -/
def digitsVal (cs : List Char) : Option Nat :=
  match cs with
  | [] => none
  | _ => digitsGo 0 cs

/-- Python `int(...)` on a string key, as used by `astype(int)`: strips
surrounding whitespace, accepts an optional sign followed by at least one
digit, fails (raises) on anything else. (Digit underscores do not occur in
the keys of this file and are not modelled.) -/
def pyIntParse (s : String) : Option Int :=
  match pyStrip s.toList with
  | '-' :: rest => (digitsVal rest).map (fun n => -(n : Int))
  | '+' :: rest => (digitsVal rest).map (fun n => (n : Int))
  | cs => (digitsVal cs).map (fun n => (n : Int))

/-- Python list slice `lines[a:b]` (for `a ≤ b`). -/
def pySlice (lines : List String) (a b : Nat) : List String :=
  (lines.drop a).take (b - a)

/-- Row of the country lookup `df_cntyl`. -/
structure CntylRow where
  i94cntyl : Int
  country : Option String
deriving DecidableEq, Inhabited

/-- One line of the country range: split on the first `=`, clean the value
with `'([^']+)'`, cast the key with `int` (the `astype(int)` of cell 7);
a failing cast fails the row. -/
def cntylRowOf (line : String) : Option CntylRow :=
  let p := splitFirst '=' line
  match pyIntParse p.1 with
  | none => none
  | some k => some ⟨k, clean_field extractQuoted p.2⟩

/-- `df_cntyl['i94cntyl'].astype(int)` raises if any key fails to parse:
the whole table exists only when every row's cast succeeds. -/
def cntylRows : List String → Option (List CntylRow)
  | [] => some []
  | line :: rest =>
    match cntylRowOf line with
    | none => none
    | some r =>
      match cntylRows rest with
      | none => none
      | some rs => some (r :: rs)

/-- Row of the port lookup `df_port`. -/
structure PortRow where
  i94port : Option String
  port : Option String
  addr : Option String
deriving DecidableEq, Inhabited

/-- One line of the port range: split on the first `=`, split the value part
on the first comma, then clean the key with `'([^']+)'`, the port name with
`'([^']+)` and the state code with `([^']+)'`. -/
def portRowOf (line : String) : PortRow :=
  let p := splitFirst '=' line
  let q := (p.2.map (splitFirst ','))
  let portRaw : Option String := q.map Prod.fst
  let addrRaw : Option String := q.bind Prod.snd
  ⟨clean_field extractQuoted (some p.1),
   clean_field extractAfterQuote portRaw,
   clean_field extractBeforeQuote addrRaw⟩

/-- Row of the mode lookup `df_mode`. -/
structure ModeRow where
  i94mode : Option String
  mode : Option String
deriving DecidableEq, Inhabited

/-- One line of the mode range: key cleaned with `\s+([^']+)`, value with
`'([^']+)'`. -/
def modeRowOf (line : String) : ModeRow :=
  let p := splitFirst '=' line
  ⟨clean_field extractAfterWs (some p.1), clean_field extractQuoted p.2⟩

/-- Row of the state lookup `df_addr`. -/
structure AddrRow where
  i94addr : Option String
  state : Option String
deriving DecidableEq, Inhabited

/-- One line of the state range: key and value both cleaned with `'([^']+)'`. -/
def addrRowOf (line : String) : AddrRow :=
  let p := splitFirst '=' line
  ⟨clean_field extractQuoted (some p.1), clean_field extractQuoted p.2⟩

/-- Row of the visa lookup `df_visa`. -/
structure VisaRow where
  i94visa : String
  visa : Option String
deriving DecidableEq, Inhabited

/-- One line of the visa range: the key is kept raw, the value is cleaned
with `([^']+)\n`. -/
def visaRowOf (line : String) : VisaRow :=
  let p := splitFirst '=' line
  ⟨p.1, clean_field extractBeforeNewline p.2⟩

/-- The five lookup tables of cell 7. -/
structure SasDicts where
  cntyl : List CntylRow
  port : List PortRow
  mode : List ModeRow
  addr : List AddrRow
  visa : List VisaRow
deriving DecidableEq, Inhabited

/-- Cell 7 as one pure function of the descriptor file's line sequence:
the five fixed slices `lines[9:297]`, `lines[302:962]`, `lines[972:976]`,
`lines[981:1036]`, `lines[1046:1049]`, each parsed row by row. The country
key cast can raise, in which case no tables are produced. -/
def parseSasDict (lines : List String) : Option SasDicts :=
  match cntylRows (pySlice lines 9 297) with
  | none => none
  | some c =>
    some ⟨c,
      (pySlice lines 302 962).map portRowOf,
      (pySlice lines 972 976).map modeRowOf,
      (pySlice lines 981 1036).map addrRowOf,
      (pySlice lines 1046 1049).map visaRowOf⟩

/-! ## Left joins (cells 29 and 46)

Both dimension joins are `pd.merge(..., how='left')`: every left row is kept
in order; a left row is paired with each matching right row (in right-table
order), or with nothing when no right row matches. Pandas matches missing
keys to missing keys, which `Option` equality reproduces. -/

/-- `pd.merge(left=l, right=r, left_on=lk, right_on=rk, how='left')`. -/
def leftJoin {α β κ : Type} [DecidableEq κ] (lk : α → κ) (rk : β → κ)
    (l : List α) (r : List β) : List (α × Option β) :=
  l.flatMap (fun a =>
    let ms := r.filter (fun b => rk b = lk a)
    if ms.isEmpty then [(a, none)] else ms.map (fun b => (a, some b)))

/-! ## Weather Dimension Builder (cells 21, 29, 31) -/

/-- A cleaned weather row (cell 21: columns renamed, country uppercased and
stringified, date parsed, null temperatures dropped); the date is embedded
as a day number. -/
structure WeatherRaw where
  date : Option Int
  average_temperature : Option ℚ
  average_temperature_uncertainty : Option ℚ
  country : Option String
deriving DecidableEq, Inhabited

/-- A weather dimension row after the country-code join. -/
structure WRow where
  date : Option Int
  average_temperature : Option ℚ
  average_temperature_uncertainty : Option ℚ
  country : Option String
  i94cntyl : Option Int
deriving DecidableEq, Inhabited

/-- Cell 29's `df_weather_dwh = pd.merge(left=df_weather, right=df_cntyl,
left_on='country', right_on='country', how='left')`. -/
def df_weather_dwh (w : List WeatherRaw) (c : List CntylRow) : List WRow :=
  (leftJoin WeatherRaw.country CntylRow.country w c).map
    (fun p => ⟨p.1.date, p.1.average_temperature,
               p.1.average_temperature_uncertainty, p.1.country,
               p.2.map CntylRow.i94cntyl⟩)

/-- `toPandas()` view of one immigration cell: a value, or NaN for the two
missing flavours (both render as float NaN in pandas and are filtered by the
`str(x) != 'nan'` test below). -/
def cellToFloat (c : SCell) : Option ℚ :=
  match c with
  | SCell.val q => some q
  | _ => none

/-- Element-wise addition of two pandas Series aligned on their positional
index, which is what the `+` of cell 31 performs: unmatched positions and
positions where either operand is NaN become NaN. -/
def seriesAdd : List (Option ℚ) → List (Option ℚ) → List (Option ℚ)
  | [], ys => ys.map (fun _ => none)
  | x :: xs, ys =>
    match ys with
    | [] => none :: seriesAdd xs []
    | y :: ys' =>
      (match x, y with
       | some a, some b => some (a + b)
       | _, _ => none) :: seriesAdd xs ys'

/-- Cell 31's `i94cntyl_in_sas`: the two `distinct()` country-code columns
are brought to pandas and combined with `+` — element-wise Series addition,
not list concatenation — then deduplicated by `set(...)`, NaN-filtered and
cast to `int`. Spark's `distinct()` and Python's `set` fix no order; both
are embedded in first-occurrence order, which changes no membership fact. -/
def i94cntyl_in_sas (tbl : SasTable) : List Int :=
  let a := ((getCol tbl "i94cit").dedup).map cellToFloat
  let b := ((getCol tbl "i94res").dedup).map cellToFloat
  ((seriesAdd a b).dedup).filterMap (fun o => o.map ratTrunc)

/-- The code set the spec describes for cell 31: the union of the distinct
non-null values of `i94cit` and `i94res`, cast to integer. This is the
spec-side quantity to compare with `i94cntyl_in_sas`. -/
def specUnionCodes (tbl : SasTable) : List Int :=
  (((getCol tbl "i94cit").filterMap cellToFloat).map ratTrunc ++
   ((getCol tbl "i94res").filterMap cellToFloat).map ratTrunc).dedup

/-- Cell 31's filter: keep the joined weather rows whose `i94cntyl` is
non-null, then those whose `i94cntyl` is in the code list (`reset_index`
only renumbers and is a no-op on a row list). -/
def weatherFilterStep (codes : List Int) (rows : List WRow) : List WRow :=
  (rows.filter (fun r => r.i94cntyl.isSome)).filter
    (fun r =>
      match r.i94cntyl with
      | some c => c ∈ codes
      | none => false)

/-! ## Airport Dimension Builder (cells 46, 51, 53) -/

/-- A raw airport row (`airport-codes_csv.csv`); `atype` embeds the csv
column named `type`, a Lean keyword. Descriptive columns that no claim
touches (elevation, continent, codes, coordinates) are omitted; they ride
along unchanged in every step. -/
structure AirportRaw where
  ident : Option String
  atype : Option String
  name : Option String
  iso_country : Option String
  iso_region : Option String
deriving DecidableEq, Inhabited

/-- An airport dimension row after cell 46's merge and `drop(['ident'])`. -/
structure AJRow where
  i94port : Option String
  port : Option String
  addr : Option String
  atype : Option String
  name : Option String
  iso_country : Option String
  iso_region : Option String
deriving DecidableEq, Inhabited

/-- Cell 46: `pd.merge(left=df_port, right=df_airport, left_on='i94port',
right_on='ident', how='left')` followed by dropping the duplicate `ident`
column. -/
def df_airport_dwh_joined (ports : List PortRow) (airports : List AirportRaw) : List AJRow :=
  (leftJoin PortRow.i94port AirportRaw.ident ports airports).map
    (fun p => ⟨p.1.i94port, p.1.port, p.1.addr,
               p.2.bind AirportRaw.atype, p.2.bind AirportRaw.name,
               p.2.bind AirportRaw.iso_country, p.2.bind AirportRaw.iso_region⟩)

/-- Regex `-([^-]+)` under `re.search` (cell 51): the first maximal nonempty
run of non-dash characters that follows a dash. -/
def extractDashSeg : List Char → Option (List Char)
  | [] => none
  | c :: rest =>
    if c = '-' then
      let seg := rest.takeWhile (fun d => d ≠ '-')
      if seg.isEmpty then extractDashSeg rest else some seg
    else extractDashSeg rest

/-- An airport dimension row after cell 51's derivation of
`iso_region_state`. -/
structure ARow where
  i94port : Option String
  port : Option String
  addr : Option String
  atype : Option String
  name : Option String
  iso_country : Option String
  iso_region : Option String
  iso_region_state : Option String
deriving DecidableEq, Inhabited

/-- Cell 51's `df_airport_dwh['iso_region_state'] = clean_field(df_airport_dwh,
'iso_region', r'-([^-]+)')`: `clean_field` assigns the cleaned value back to
the `iso_region` column itself before returning it, so after this statement
`iso_region` and the new `iso_region_state` both hold the cleaned value and
the original region code is gone. -/
def deriveRegionState (l : List AJRow) : List ARow :=
  l.map (fun r =>
    ⟨r.i94port, r.port, r.addr, r.atype, r.name, r.iso_country,
     clean_field extractDashSeg r.iso_region,
     clean_field extractDashSeg r.iso_region⟩)

/-- Reading of the spec's C7 sentence "extracting the substring after the
last `-` in the airport's region code", stripped and uppercased like the
rest of the pipeline (none when the code has no dash). This is the
spec-side function to compare with `clean_field extractDashSeg`. -/
def afterLastDash (s : String) : Option String :=
  if '-' ∈ s.toList then
    some (String.mk (pyUpper (pyStrip ((s.toList.reverse.takeWhile (fun c => c ≠ '-')).reverse))))
  else none

/-- Pandas `!=` between two nullable cells: NaN compares unequal to
everything, including another NaN. -/
def pdNe (x y : Option String) : Bool :=
  match x, y with
  | some a, some b => decide (a ≠ b)
  | _, _ => true

/-- Cell 51's outlier mask: airport `type` present and
`iso_region_state != addr` under pandas comparison. -/
def outlierPred (r : ARow) : Bool := r.atype.isSome && pdNe r.iso_region_state r.addr

/-- `df_airport_dwh_outliers.index.tolist()`: the (unique, positional)
indices of the rows the outlier mask selects. -/
def outlierIdx (l : List ARow) : List Nat :=
  (l.enum.filter (fun p => outlierPred p.2)).map Prod.fst

/-- An airport dimension row with cell 53's `false_join` flag. -/
structure AFRow extends ARow where
  false_join : Bool
deriving DecidableEq, Inhabited

/-- Cell 53: `df_airport_dwh['false_join'] =
df_airport_dwh.index.isin(df_airport_dwh_outliers.index.tolist())` — every
row is kept and gains a flag telling whether its index is an outlier index. -/
def flagFalseJoin (l : List ARow) : List AFRow :=
  l.enum.map (fun p => { toARow := p.2, false_join := decide (p.1 ∈ outlierIdx l) })

/-! ## Demographic race distribution (cell 39) -/

/-- One city-level demographic record, restricted to the columns cell 39
reads; `count` is the integer race count, embedded in ℚ since the claim
reads the fractions over exact rationals. -/
structure DemoRow where
  state_code : String
  race : String
  count : ℚ
deriving DecidableEq, Inhabited

/-- `df_demo.groupby(['state_code', 'race'])['count'].agg('sum')` at one
(state, race) key. -/
def raceCountSum (l : List DemoRow) (s r : String) : ℚ :=
  (((l.filter (fun x => x.state_code = s)).filter (fun x => x.race = r)).map DemoRow.count).sum

/-- `df_demo.groupby(['state_code'])['count'].agg('sum')` at one state key. -/
def stateCountSum (l : List DemoRow) (s : String) : ℚ :=
  ((l.filter (fun x => x.state_code = s)).map DemoRow.count).sum

/-- Cell 39's `fraction` column at one (state, race) key: the race's summed
count divided by the state's summed count. -/
def raceFraction (l : List DemoRow) (s r : String) : ℚ :=
  raceCountSum l s r / stateCountSum l s

/-- The distinct races appearing for a state — the `race` part of the
(state_code, race) group keys cell 39 produces for that state. -/
def racesOf (l : List DemoRow) (s : String) : Finset String :=
  ((l.filter (fun x => x.state_code = s)).map DemoRow.race).toFinset

/-! ## Concrete tables

Small concrete instances of the pipeline's inputs, used to evaluate the
embedded transformations at specific data. -/

/-- A three-row raw immigration table carrying every column that cells 16-17
touch; two rows share the `cicid` value 6 and one row has a missing `cicid`. -/
def exImmC1 : SasTable :=
  ⟨["cicid", "i94yr", "i94mon", "i94cit", "i94res", "arrdate", "i94mode",
    "i94bir", "count", "i94visa", "depdate", "biryear", "admnum"],
   [[SCell.val 6, SCell.val 2016, SCell.val 4, SCell.val 582, SCell.val 100,
     SCell.val 20550, SCell.val 1, SCell.val 30, SCell.val 1, SCell.val 2,
     SCell.val 20555, SCell.val 1986, SCell.val 123],
    [SCell.val 6, SCell.val 2016, SCell.val 4, SCell.val 101, SCell.val 102,
     SCell.val 20551, SCell.val 1, SCell.val 40, SCell.val 1, SCell.val 1,
     SCell.val 20556, SCell.val 1976, SCell.val 124],
    [SCell.null, SCell.val 2016, SCell.val 4, SCell.val 103, SCell.val 104,
     SCell.val 20552, SCell.val 1, SCell.val 50, SCell.val 1, SCell.val 3,
     SCell.val 20557, SCell.val 1966, SCell.val 125]]⟩

/-- A one-row immigration table whose only origin country code is 582 and
whose only residence country code is 100. -/
def exImmC2 : SasTable := ⟨["i94cit", "i94res"], [[SCell.val 582, SCell.val 100]]⟩

/-- Two already-joined weather rows: one resolved to code 682 (the sum
582 + 100, a code of no row of `exImmC2`) and one resolved to 582 (a code
that does appear in `exImmC2`). -/
def exWeatherC2 : List WRow :=
  [⟨some 0, some 10, some 1, some "ATLANTIS", some 682⟩,
   ⟨some 0, some 12, some 1, some "FRANCE", some 582⟩]

/-- A three-row table whose `occup` column is entirely SQL null and whose
`entdepu` column is entirely NaN. -/
def exImmC3 : SasTable :=
  ⟨["occup", "entdepu"],
   [[SCell.null, SCell.nan], [SCell.null, SCell.nan], [SCell.null, SCell.nan]]⟩

/-- A one-row port lookup. -/
def exPortsC5 : List PortRow := [⟨some "ATL", some "ATLANTA", some "GA"⟩]

/-- A two-row airport table in which the identifier `ATL` occurs twice. -/
def exAirportsC5 : List AirportRaw :=
  [⟨some "ATL", some "small_airport", some "Airport A", some "US", some "US-GA"⟩,
   ⟨some "ATL", some "heliport", some "Airport B", some "US", some "US-GA"⟩]

/-- A one-row airport table with a unique identifier column. -/
def exAirportsC5b : List AirportRaw :=
  [⟨some "ATL", some "large_airport", some "Airport C", some "US", some "US-GA"⟩]

/-- A one-row cleaned weather table. -/
def exWeatherRawC5 : List WeatherRaw := [⟨some 0, some 10, some 1, some "FRANCE"⟩]

/-- A one-row country lookup with a unique country column. -/
def exCntylC5 : List CntylRow := [⟨582, some "FRANCE"⟩]

/-- Two derived airport rows: one with matching region state and `addr`,
one mismatching. -/
def exARowsC6 : List ARow :=
  [⟨some "ATL", some "ATLANTA", some "GA", some "small_airport",
    some "Airport A", some "US", some "GA", some "GA"⟩,
   ⟨some "XYZ", some "SOMEWHERE", some "FL", some "heliport",
    some "Airport B", some "US", some "CA", some "CA"⟩]

/-- A one-row joined airport table whose region code holds two dashes. -/
def exAJC7 : List AJRow :=
  [⟨some "XXX", some "PLACE", some "CC", some "small_airport",
    some "Airport X", some "ZZ", some "A-B-C"⟩]

/-- A one-row joined airport table with the well-formed region code `US-GA`. -/
def exAJC10 : List AJRow :=
  [⟨some "ATL", some "ATLANTA", some "GA", some "small_airport",
    some "Airport A", some "US", some "US-GA"⟩]

/-- A two-row demographic table: state `AL` with race counts 3 and 1. -/
def exDemo : List DemoRow := [⟨"AL", "White", 3⟩, ⟨"AL", "Black", 1⟩]

/-- A 1049-line descriptor file none of whose country-range lines has an
integer-parsable key. -/
def badLines : List String := List.replicate 1049 "x"

/-- A 1049-line descriptor file all of whose lines parse in every range. -/
def goodLines : List String := List.replicate 1049 "1='A'"

/-- The five tables `parseSasDict` produces from `goodLines`. -/
def goodDicts : SasDicts :=
  ⟨List.replicate 288 ⟨1, some "A"⟩,
   List.replicate 660 (portRowOf "1='A'"),
   List.replicate 4 (modeRowOf "1='A'"),
   List.replicate 55 (addrRowOf "1='A'"),
   List.replicate 3 (visaRowOf "1='A'")⟩

/-! ## Helper lemmas -/

/-- `String.mk` and `String.toList` are inverse on the nose. -/
theorem toList_mk (l : List Char) : (String.mk l).toList = l := rfl

/-- `cntylRows` preserves the number of lines when it succeeds. -/
theorem cntylRows_length (ls : List String) (rs : List CntylRow)
    (h : cntylRows ls = some rs) : rs.length = ls.length := by
  induction ls generalizing rs with
  | nil =>
    simp only [cntylRows, Option.some.injEq] at h
    simp [← h]
  | cons a t ih =>
    simp only [cntylRows] at h
    cases e1 : cntylRowOf a with
    | none => rw [e1] at h; exact absurd h (by simp)
    | some r =>
      rw [e1] at h
      cases e2 : cntylRows t with
      | none => rw [e2] at h; exact absurd h (by simp)
      | some rs' =>
        rw [e2] at h
        simp only [Option.some.injEq] at h
        simp [← h, ih rs' e2]

/-- `cntylRows` on a constant line list. -/
theorem cntylRows_replicate (n : Nat) (line : String) (r : CntylRow)
    (h : cntylRowOf line = some r) :
    cntylRows (List.replicate n line) = some (List.replicate n r) := by
  induction n with
  | zero => simp [cntylRows]
  | succ k ih => simp [List.replicate_succ, cntylRows, h, ih]

/-- When the right-hand keys are pairwise distinct, at most one right row
matches any key. -/
theorem filter_key_length_le_one {β κ : Type} [DecidableEq κ] (rk : β → κ) (k : κ)
    (r : List β) (h : (r.map rk).Nodup) :
    (r.filter (fun b => rk b = k)).length ≤ 1 := by
  induction r with
  | nil => simp
  | cons b t ih =>
    rw [List.map_cons, List.nodup_cons] at h
    by_cases hb : rk b = k
    · have hnil : t.filter (fun x => rk x = k) = [] := by
        refine List.filter_eq_nil_iff.mpr ?_
        intro x hx hxk
        refine h.1 ?_
        simp only [decide_eq_true_eq] at hxk
        rw [List.mem_map]
        exact ⟨x, hx, by rw [hxk, hb]⟩
      simp [List.filter_cons, hb, hnil]
    · simpa [List.filter_cons, hb] using ih h.2

/-- A left join against a right table with pairwise-distinct keys has
exactly as many rows as the left table. -/
theorem leftJoin_length {α β κ : Type} [DecidableEq κ] (lk : α → κ) (rk : β → κ)
    (l : List α) (r : List β) (h : (r.map rk).Nodup) :
    (leftJoin lk rk l r).length = l.length := by
  induction l with
  | nil => simp [leftJoin]
  | cons a t ih =>
    simp only [leftJoin, List.flatMap_cons] at *
    rw [List.length_append, ih]
    have hgroup : (if (r.filter (fun b => rk b = lk a)).isEmpty
        then [((a : α), (none : Option β))]
        else (r.filter (fun b => rk b = lk a)).map (fun b => (a, some b))).length = 1 := by
      by_cases he : (r.filter (fun b => rk b = lk a)).isEmpty
      · simp [he]
      · rw [if_neg he, List.length_map]
        have h1 : (r.filter (fun b => rk b = lk a)).length ≤ 1 :=
          filter_key_length_le_one rk (lk a) r h
        have h2 : (r.filter (fun b => rk b = lk a)) ≠ [] := by
          simpa [List.isEmpty_iff] using he
        have h3 : 0 < (r.filter (fun b => rk b = lk a)).length :=
          List.length_pos.mpr h2
        omega
    rw [hgroup]
    simp only [List.length_cons]
    omega

/-- Summing a list fiberwise over a set of keys that covers every element
recovers the total sum. -/
theorem sum_keyed_filter {α : Type} (key : α → String) (f : α → ℚ) (l : List α) :
    ∀ (t : Finset String), (∀ x ∈ l, key x ∈ t) →
      (∑ k in t, ((l.filter (fun x => key x = k)).map f).sum) = (l.map f).sum := by
  induction l with
  | nil => intro t _; simp
  | cons a l ih =>
    intro t h
    have ha : key a ∈ t := h a (by simp)
    have step : ∀ k : String,
        (((a :: l).filter (fun x => key x = k)).map f).sum
          = (if key a = k then f a else 0)
            + ((l.filter (fun x => key x = k)).map f).sum := by
      intro k
      by_cases hk : key a = k
      · simp [List.filter_cons, hk]
      · simp [List.filter_cons, hk]
    rw [Finset.sum_congr rfl (fun k _ => step k), Finset.sum_add_distrib,
      Finset.sum_ite_eq, if_pos ha, ih t (fun x hx => h x (by simp [hx]))]
    simp

/-- Rewrite `sasNullFrac` once its numerator and denominator are known. -/
theorem sasNullFrac_eval (tbl : SasTable) (j a b : Nat)
    (h1 : sparkCount ((colAt tbl j).map whenMissingSelf) = a)
    (h2 : tbl.rows.length = b) :
    sasNullFrac tbl j = (a : ℚ) / (b : ℚ) := by
  rw [sasNullFrac, h1, h2]

/-- Rewrite `specNullFrac` once its numerator and denominator are known. -/
theorem specNullFrac_eval (tbl : SasTable) (j a b : Nat)
    (h1 : ((colAt tbl j).filter (fun c => isNullCell c || isnanCell c)).length = a)
    (h2 : tbl.rows.length = b) :
    specNullFrac tbl j = (a : ℚ) / (b : ℚ) := by
  rw [specNullFrac, h1, h2]

/-- `when(isnan(c) | isNull(c), c)` is null whenever the cell is not NaN. -/
theorem whenMissing_null_of_ne_nan (c : SCell) (h : ¬ c = SCell.nan) :
    isNullCell (whenMissingSelf c) = true := by
  cases c with
  | val q => rfl
  | null => rfl
  | nan => exact absurd rfl h
  | date d => rfl

/-- The computed missing count of a column is 0 whenever the table holds no
NaN cell, whatever its null cells. -/
theorem sparkCount_zero (rows : List (List SCell)) (j : Nat)
    (h : ∀ r ∈ rows, ∀ c ∈ r, ¬ c = SCell.nan) :
    sparkCount ((rows.map (fun r => cellAt r j)).map whenMissingSelf) = 0 := by
  simp only [sparkCount, List.length_eq_zero]
  refine List.filter_eq_nil_iff.mpr ?_
  intro a ha
  simp only [List.mem_map] at ha
  obtain ⟨c, ⟨r, hr, rfl⟩, rfl⟩ := ha
  have hx : ¬ (cellAt r j) = SCell.nan := by
    by_cases hj : j < r.length
    · rw [cellAt, List.getD_eq_getElem r SCell.null hj]
      exact h r hr _ (List.getElem_mem hj)
    · rw [cellAt, List.getD_eq_default]
      · simp
      · omega
  simp [whenMissing_null_of_ne_nan _ hx]

/-- The loop collects nothing when no column exceeds the threshold. -/
theorem empty_cols_go_nil (tbl : SasTable)
    (h : ∀ j, ¬ ((9 : ℚ) / 10 < sasNullFrac tbl j)) :
    ∀ (cs : List String) (j : Nat), empty_cols_go tbl j cs = [] := by
  intro cs
  induction cs with
  | nil => intro j; rfl
  | cons c cs ih => intro j; simp [empty_cols_go, h j, ih]

/-- `empty_cols` is empty when no column exceeds the threshold. -/
theorem empty_cols_nil (tbl : SasTable)
    (h : ∀ j, ¬ ((9 : ℚ) / 10 < sasNullFrac tbl j)) :
    empty_cols tbl = [] :=
  empty_cols_go_nil tbl h tbl.cols 0

/-! ## Claim theorems -/

/-- C4: the day-offset-to-date conversion applied to the arrival and
departure columns is a deterministic pure function of the integer offset:
offset 0 maps exactly to 1960-01-01, offset 1 to 1960-01-02, and in general
offset n to 1960-01-01 plus n days, including for negative n, with no
wraparound (the map is injective). -/
theorem date_add_epoch_offset :
    civilFromDays (date_add_ 0) = (1960, 1, 1) ∧
    civilFromDays (date_add_ 1) = (1960, 1, 2) ∧
    civilFromDays (date_add_ (-1)) = (1959, 12, 31) ∧
    (∀ n : Int, date_add_ n = date_add_ 0 + n) ∧
    (∀ m n : Int, date_add_ m = date_add_ n → m = n) := by
  refine ⟨by decide, by decide, by decide, ?_, ?_⟩
  · intro n
    simp only [date_add_]
    omega
  · intro m n h
    simp only [date_add_] at h
    omega

/-- Witness for `date_add_epoch_offset` at the concrete offset 7. -/
theorem date_add_epoch_offset_witness :
    date_add_ 7 = date_add_ 0 + 7 ∧ (7 : Int) = 7 :=
  ⟨date_add_epoch_offset.2.2.2.1 7, date_add_epoch_offset.2.2.2.2 7 7 rfl⟩

/-- C3 (code bug): the drop criterion of cell 14 does not measure the
null-or-NaN fraction. On `exImmC3` the `occup` column (index 0) is 100%
null — its spec fraction is 1, far above the 0.9 threshold — yet the
computed fraction is 0, because a null cell makes `when(...)`'s value null
and `count` skips nulls; only the all-NaN column `entdepu` is dropped. -/
theorem empty_cols_ignores_null_bug :
    empty_cols exImmC3 = ["entdepu"] ∧
    sasNullFrac exImmC3 0 = 0 ∧
    specNullFrac exImmC3 0 = 1 ∧
    (9 : ℚ) / 10 < specNullFrac exImmC3 0 := by
  have h0 : sasNullFrac exImmC3 0 = ((0 : Nat) : ℚ) / ((3 : Nat) : ℚ) :=
    sasNullFrac_eval _ _ 0 3 (by decide) (by decide)
  have h1 : sasNullFrac exImmC3 1 = ((3 : Nat) : ℚ) / ((3 : Nat) : ℚ) :=
    sasNullFrac_eval _ _ 3 3 (by decide) (by decide)
  have hs : specNullFrac exImmC3 0 = ((3 : Nat) : ℚ) / ((3 : Nat) : ℚ) :=
    specNullFrac_eval _ _ 3 3 (by decide) (by decide)
  have c0 : ¬ ((9 : ℚ) / 10 < sasNullFrac exImmC3 0) := by rw [h0]; norm_num
  have c1 : (9 : ℚ) / 10 < sasNullFrac exImmC3 1 := by rw [h1]; norm_num
  have hcols : exImmC3.cols = ["occup", "entdepu"] := rfl
  refine ⟨?_, ?_, ?_, ?_⟩
  · rw [empty_cols, hcols]
    simp [empty_cols_go, c0, c1]
  · rw [h0]; norm_num
  · rw [hs]; norm_num
  · rw [hs]; norm_num

/-- C1 (code bug): the Immigration Cleaner never deduplicates `cicid`.
Running the full cleaner on `exImmC1` drops the missing-`cicid` row but
keeps both rows with `cicid = 6`: every surviving `cicid` is non-missing,
yet the column is not duplicate-free. -/
theorem immigrationClean_duplicate_cicid_bug :
    (immigrationClean exImmC1).rows.length = 2 ∧
    getCol (immigrationClean exImmC1) "cicid" = [SCell.val 6, SCell.val 6] ∧
    ¬ (getCol (immigrationClean exImmC1) "cicid").Nodup ∧
    (getCol (immigrationClean exImmC1) "cicid").all
      (fun c => ¬ isMissingCell c) = true := by
  have hz : ∀ j, sasNullFrac exImmC1 j = ((0 : Nat) : ℚ) / ((3 : Nat) : ℚ) := fun j =>
    sasNullFrac_eval _ _ 0 3 (sparkCount_zero exImmC1.rows j (by decide)) (by decide)
  have hempty : empty_cols exImmC1 = [] :=
    empty_cols_nil exImmC1 (fun j => by rw [hz j]; norm_num)
  have ha : df_sas_clean_a exImmC1 = dropCols exImmC1 [] := by
    rw [df_sas_clean_a, hempty]
  rw [immigrationClean, ha]
  decide

/-- C2 (code bug): cell 31's `+` adds the two distinct-code Series
element-wise instead of unioning them. On `exImmC2` (codes 582 and 100) the
computed list is `[682]`, not the union `[582, 100]`; the weather filter
then retains the row resolved to 682 — a code outside the union — and drops
the row resolved to 582, a code inside it. -/
theorem i94cntyl_in_sas_sum_bug :
    i94cntyl_in_sas exImmC2 = [682] ∧
    specUnionCodes exImmC2 = [582, 100] ∧
    weatherFilterStep (i94cntyl_in_sas exImmC2) exWeatherC2 =
      [⟨some 0, some 10, some 1, some "ATLANTIS", some 682⟩] ∧
    ¬ (682 ∈ specUnionCodes exImmC2) ∧ (582 ∈ specUnionCodes exImmC2) := by
  have e1 : (getCol exImmC2 "i94cit").dedup.map cellToFloat = [some (582 : ℚ)] := by decide
  have e2 : (getCol exImmC2 "i94res").dedup.map cellToFloat = [some (100 : ℚ)] := by decide
  have e3 : seriesAdd [some (582 : ℚ)] [some (100 : ℚ)] = [some ((582 : ℚ) + 100)] := rfl
  have hadd : (582 : ℚ) + 100 = 682 := by norm_num
  have hlist : i94cntyl_in_sas exImmC2 = [682] := by
    simp only [i94cntyl_in_sas]
    rw [e1, e2, e3, hadd]
    decide
  rw [hlist]
  decide

/-- C5 (counterexample): a left join does not keep the left row count when
the right table's keys repeat. Joining the one-row port lookup `exPortsC5`
to `exAirportsC5`, whose identifier `ATL` occurs twice, yields two rows. -/
theorem airport_join_cardinality_counterexample :
    (df_airport_dwh_joined exPortsC5 exAirportsC5).length = 2 ∧
    exPortsC5.length = 1 ∧
    ¬ (df_airport_dwh_joined exPortsC5 exAirportsC5).length = exPortsC5.length := by
  decide

/-- C5 (amended): both left joins of the pipeline — port lookup to airport
data and weather to country lookup — keep exactly the left table's row
count whenever the right table's join keys are pairwise distinct. -/
theorem join_count_preserved_of_unique_keys :
    (∀ (ports : List PortRow) (airports : List AirportRaw),
        (airports.map AirportRaw.ident).Nodup →
        (df_airport_dwh_joined ports airports).length = ports.length) ∧
    (∀ (w : List WeatherRaw) (c : List CntylRow),
        (c.map CntylRow.country).Nodup →
        (df_weather_dwh w c).length = w.length) := by
  constructor
  · intro ports airports h
    rw [df_airport_dwh_joined, List.length_map]
    exact leftJoin_length _ _ ports airports h
  · intro w c h
    rw [df_weather_dwh, List.length_map]
    exact leftJoin_length _ _ w c h

/-- Witness for `join_count_preserved_of_unique_keys` on one-row tables
with unique right keys. -/
theorem join_count_preserved_of_unique_keys_witness :
    (df_airport_dwh_joined exPortsC5 exAirportsC5b).length = exPortsC5.length ∧
    (df_weather_dwh exWeatherRawC5 exCntylC5).length = exWeatherRawC5.length :=
  ⟨join_count_preserved_of_unique_keys.1 exPortsC5 exAirportsC5b (by decide),
   join_count_preserved_of_unique_keys.2 exWeatherRawC5 exCntylC5 (by decide)⟩

/-- C6: cell 53 removes no row — stripping the flag gives back exactly the
input table — and a row's `false_join` flag is true exactly when its airport
type is present and its `iso_region_state` differs from its `addr` under the
comparison the code performs (pandas `!=`, where a missing value compares
unequal to everything, another missing value included). -/
theorem false_join_characterization (l : List ARow) (i : Nat) (h : i < l.length) :
    (flagFalseJoin l).map AFRow.toARow = l ∧
    ((flagFalseJoin l).getD i default).false_join = outlierPred (l.getD i default) := by
  constructor
  · rw [flagFalseJoin, List.map_map]
    exact List.enum_map_snd l
  · have hL : i < (flagFalseJoin l).length := by
      simpa [flagFalseJoin, List.enum_length] using h
    rw [List.getD_eq_getElem _ _ hL, List.getD_eq_getElem _ _ h]
    simp only [flagFalseJoin, List.getElem_map, List.getElem_enum]
    have hiff : (i ∈ outlierIdx l) ↔ (outlierPred l[i] = true) := by
      simp only [outlierIdx, List.mem_map, List.mem_filter]
      constructor
      · rintro ⟨⟨j, x⟩, ⟨hmem, hpred⟩, hfst⟩
        rw [List.mk_mem_enum_iff_getElem?] at hmem
        simp only at hfst
        subst hfst
        rw [List.getElem?_eq_getElem h] at hmem
        cases hmem
        exact hpred
      · intro hp
        refine ⟨(i, l[i]), ⟨?_, hp⟩, rfl⟩
        rw [List.mk_mem_enum_iff_getElem?]
        exact List.getElem?_eq_getElem h
    cases hp : outlierPred l[i] with
    | true => simpa using decide_eq_true (hiff.mpr hp)
    | false =>
      refine decide_eq_false ?_
      intro hin
      rw [hiff.mp hin] at hp
      cases hp

/-- Witness for `false_join_characterization` on the two-row table
`exARowsC6` at index 0. -/
theorem false_join_characterization_witness :
    (flagFalseJoin exARowsC6).map AFRow.toARow = exARowsC6 ∧
    ((flagFalseJoin exARowsC6).getD 0 default).false_join =
      outlierPred (exARowsC6.getD 0 default) :=
  false_join_characterization exARowsC6 0 (by decide)

/-- Scanning a string whose first dash is followed by a nonempty dash-free
remainder captures exactly that remainder. -/
theorem extractDashSeg_append (pre post : List Char)
    (h1 : ¬ '-' ∈ pre) (h2 : ¬ '-' ∈ post) (h3 : post ≠ []) :
    extractDashSeg (pre ++ '-' :: post) = some post := by
  induction pre with
  | nil =>
    simp only [List.nil_append, extractDashSeg, if_pos rfl]
    have ht : post.takeWhile (fun d => d ≠ '-') = post := by
      refine List.takeWhile_eq_self_iff.mpr ?_
      intro x hx
      simp only [decide_eq_true_eq]
      exact fun he => h2 (he ▸ hx)
    rw [ht]
    have : post.isEmpty = false := by
      cases post with
      | nil => exact absurd rfl h3
      | cons a t => rfl
    simp [this]
  | cons a pre ih =>
    have ha : ¬ a = '-' := fun he => h1 (by simp [he])
    simp only [List.cons_append, extractDashSeg, if_neg ha]
    exact ih (fun hm => h1 (by simp [hm]))

/-- `takeWhile` over a satisfying prefix followed by a failing element stops
exactly at the prefix. -/
theorem takeWhile_prefix_append (p : Char → Bool) (l1 : List Char) (x : Char)
    (l2 : List Char) (h1 : ∀ a ∈ l1, p a = true) (hx : p x = false) :
    (l1 ++ x :: l2).takeWhile p = l1 := by
  induction l1 with
  | nil => simp [List.takeWhile_cons, hx]
  | cons a t ih =>
    have hpa : p a = true := h1 a (by simp)
    simp [List.takeWhile_cons, hpa, ih (fun b hb => h1 b (by simp [hb]))]

/-- The spec-side last-dash extraction on a string whose final dash is
followed by a dash-free remainder. -/
theorem afterLastDash_append (pre post : List Char) (h2 : ¬ '-' ∈ post) :
    afterLastDash (String.mk (pre ++ '-' :: post)) =
      some (String.mk (pyUpper (pyStrip post))) := by
  rw [afterLastDash, toList_mk, if_pos (by simp)]
  have hrev : (pre ++ '-' :: post).reverse = post.reverse ++ '-' :: pre.reverse := by
    simp [List.reverse_append, List.reverse_cons, List.append_assoc]
  rw [hrev, takeWhile_prefix_append _ post.reverse '-' pre.reverse
    (by
      intro a ha
      rw [List.mem_reverse] at ha
      simp only [decide_eq_true_eq]
      exact fun he => h2 (he ▸ ha))
    (by simp), List.reverse_reverse]

/-- C7 (counterexample): on the region code `A-B-C` the pipeline derives
`iso_region_state = B` — the segment after the FIRST dash — while the
substring after the last dash is `C`. -/
theorem iso_region_state_last_dash_counterexample :
    ((deriveRegionState exAJC7).getD 0 default).iso_region_state = some "B" ∧
    afterLastDash "A-B-C" = some "C" ∧
    ¬ ((deriveRegionState exAJC7).getD 0 default).iso_region_state =
        afterLastDash "A-B-C" := by
  refine ⟨by decide, by decide, by decide⟩

/-- C7 (amended): the derived `iso_region_state` is the cleaned first-dash
segment of the region code (the maximal run of non-dash characters after the
first dash that is followed by one, stripped and uppercased); on region
codes with exactly one dash and a nonempty remainder — the well-formed
`CC-RR` ISO form — this coincides with the substring after the last dash. -/
theorem iso_region_state_first_dash_segment :
    (∀ (l : List AJRow) (i : Nat), i < l.length →
        ((deriveRegionState l).getD i default).iso_region_state =
          clean_field extractDashSeg ((l.getD i default).iso_region)) ∧
    (∀ (pre post : List Char), ¬ '-' ∈ pre → ¬ '-' ∈ post → post ≠ [] →
        clean_field extractDashSeg (some (String.mk (pre ++ '-' :: post))) =
          afterLastDash (String.mk (pre ++ '-' :: post))) := by
  constructor
  · intro l i h
    have hL : i < (deriveRegionState l).length := by
      simpa [deriveRegionState] using h
    rw [List.getD_eq_getElem _ _ hL, List.getD_eq_getElem _ _ h]
    simp only [deriveRegionState, List.getElem_map]
  · intro pre post h1 h2 h3
    rw [afterLastDash_append pre post h2]
    simp only [clean_field, Option.some_bind, toList_mk]
    rw [extractDashSeg_append pre post h1 h2 h3]
    rfl

/-- Witness for `iso_region_state_first_dash_segment`: the derivation on
`exAJC10` at row 0, and the last-dash coincidence on `US-GA`. -/
theorem iso_region_state_first_dash_segment_witness :
    ((deriveRegionState exAJC10).getD 0 default).iso_region_state =
      clean_field extractDashSeg ((exAJC10.getD 0 default).iso_region) ∧
    clean_field extractDashSeg (some (String.mk (['U', 'S'] ++ '-' :: ['G', 'A']))) =
      afterLastDash (String.mk (['U', 'S'] ++ '-' :: ['G', 'A'])) :=
  ⟨iso_region_state_first_dash_segment.1 exAJC10 0 (by decide),
   iso_region_state_first_dash_segment.2 ['U', 'S'] ['G', 'A']
     (by decide) (by decide) (by decide)⟩

/-- C8: for every state whose summed count is non-zero, the race fractions
of that state sum to exactly 1 over the rationals, because each fraction is
the race's summed count divided by the state's summed count. -/
theorem race_fractions_sum_to_one (l : List DemoRow) (s : String)
    (h : stateCountSum l s ≠ 0) :
    (∑ r in racesOf l s, raceFraction l s r) = 1 := by
  have cover : ∀ x ∈ l.filter (fun x => x.state_code = s),
      DemoRow.race x ∈ racesOf l s := by
    intro x hx
    rw [racesOf, List.mem_toFinset]
    exact List.mem_map.mpr ⟨x, hx, rfl⟩
  have key := sum_keyed_filter DemoRow.race DemoRow.count
    (l.filter (fun x => x.state_code = s)) (racesOf l s) cover
  simp only [raceFraction, raceCountSum, stateCountSum] at *
  rw [← Finset.sum_div, key, div_self h]

/-- Witness for `race_fractions_sum_to_one` on `exDemo` at state `AL`. -/
theorem race_fractions_sum_to_one_witness :
    stateCountSum exDemo "AL" ≠ 0 ∧
    (∑ r in racesOf exDemo "AL", raceFraction exDemo "AL" r) = 1 := by
  have h : stateCountSum exDemo "AL" ≠ 0 := by
    norm_num [stateCountSum, exDemo]
  exact ⟨h, race_fractions_sum_to_one exDemo "AL" h⟩

/-- C9 (counterexample): a 1049-line descriptor file whose country-range
keys fail Python's `int` produces no tables at all — `astype(int)` raises —
rather than five tables of the configured lengths. -/
theorem parseSasDict_cast_failure_counterexample :
    1049 ≤ badLines.length ∧ parseSasDict badLines = none := by
  constructor
  · rw [show badLines = List.replicate 1049 "x" from rfl, List.length_replicate]
  · decide

/-- C9 (amended): whenever the descriptor file has at least 1049 lines and
the country-key cast succeeds (so tables are produced at all), each lookup
table has exactly its configured range length — country 288, port 660,
mode 4, state 55, visa 3 — and re-parsing the same lines is identical. -/
theorem parseSasDict_row_counts (lines : List String) (d : SasDicts)
    (hlen : 1049 ≤ lines.length) (hp : parseSasDict lines = some d) :
    d.cntyl.length = 288 ∧ d.port.length = 660 ∧ d.mode.length = 4 ∧
    d.addr.length = 55 ∧ d.visa.length = 3 ∧
    parseSasDict lines = parseSasDict lines := by
  have hslice : ∀ a b : Nat, b ≤ lines.length → (pySlice lines a b).length = b - a := by
    intro a b hb
    rw [pySlice, List.length_take, List.length_drop]
    omega
  cases e : cntylRows (pySlice lines 9 297) with
  | none =>
    rw [parseSasDict] at hp
    rw [e] at hp
    exact absurd hp (by simp)
  | some c =>
    rw [parseSasDict] at hp
    rw [e] at hp
    simp only [Option.some.injEq] at hp
    subst hp
    refine ⟨?_, ?_, ?_, ?_, ?_, rfl⟩
    · show c.length = 288
      rw [cntylRows_length _ _ e, hslice 9 297 (by omega)]
    · show ((pySlice lines 302 962).map portRowOf).length = 660
      rw [List.length_map, hslice 302 962 (by omega)]
    · show ((pySlice lines 972 976).map modeRowOf).length = 4
      rw [List.length_map, hslice 972 976 (by omega)]
    · show ((pySlice lines 981 1036).map addrRowOf).length = 55
      rw [List.length_map, hslice 981 1036 (by omega)]
    · show ((pySlice lines 1046 1049).map visaRowOf).length = 3
      rw [List.length_map, hslice 1046 1049 (by omega)]

/-- `parseSasDict` on the all-parsable constant file. -/
theorem parseSasDict_goodLines : parseSasDict goodLines = some goodDicts := by
  have h1 : pySlice goodLines 9 297 = List.replicate 288 "1='A'" := by
    rw [goodLines, pySlice, List.drop_replicate, List.take_replicate]
    norm_num
  have h2 : pySlice goodLines 302 962 = List.replicate 660 "1='A'" := by
    rw [goodLines, pySlice, List.drop_replicate, List.take_replicate]
    norm_num
  have h3 : pySlice goodLines 972 976 = List.replicate 4 "1='A'" := by
    rw [goodLines, pySlice, List.drop_replicate, List.take_replicate]
    norm_num
  have h4 : pySlice goodLines 981 1036 = List.replicate 55 "1='A'" := by
    rw [goodLines, pySlice, List.drop_replicate, List.take_replicate]
    norm_num
  have h5 : pySlice goodLines 1046 1049 = List.replicate 3 "1='A'" := by
    rw [goodLines, pySlice, List.drop_replicate, List.take_replicate]
    norm_num
  have hc : cntylRowOf "1='A'" = some ⟨1, some "A"⟩ := by decide
  rw [parseSasDict, h1, h2, h3, h4, h5, cntylRows_replicate 288 _ _ hc]
  show some (⟨List.replicate 288 ⟨1, some "A"⟩,
      (List.replicate 660 "1='A'").map portRowOf,
      (List.replicate 4 "1='A'").map modeRowOf,
      (List.replicate 55 "1='A'").map addrRowOf,
      (List.replicate 3 "1='A'").map visaRowOf⟩ : SasDicts) = some goodDicts
  rw [List.map_replicate, List.map_replicate, List.map_replicate, List.map_replicate]
  rfl

/-- Witness for `parseSasDict_row_counts` on `goodLines`. -/
theorem parseSasDict_row_counts_witness :
    1049 ≤ goodLines.length ∧
    goodDicts.cntyl.length = 288 ∧ goodDicts.port.length = 660 ∧
    goodDicts.mode.length = 4 ∧ goodDicts.addr.length = 55 ∧
    goodDicts.visa.length = 3 ∧
    parseSasDict goodLines = parseSasDict goodLines := by
  have h1 : 1049 ≤ goodLines.length := by
    rw [show goodLines = List.replicate 1049 "1='A'" from rfl, List.length_replicate]
  have h := parseSasDict_row_counts goodLines goodDicts h1 parseSasDict_goodLines
  exact ⟨h1, h.1, h.2.1, h.2.2.1, h.2.2.2.1, h.2.2.2.2.1, h.2.2.2.2.2⟩

/-- C10: `clean_field` writes the cleaned value back into the column it
reads, so after cell 51 the airport table's `iso_region` no longer holds the
original region code: it equals the derived `iso_region_state` on every row,
both being the cleaned extraction of the original `iso_region`. -/
theorem clean_field_mutates_iso_region (l : List AJRow) (i : Nat) (h : i < l.length) :
    ((deriveRegionState l).getD i default).iso_region_state =
      ((deriveRegionState l).getD i default).iso_region ∧
    ((deriveRegionState l).getD i default).iso_region =
      clean_field extractDashSeg ((l.getD i default).iso_region) := by
  have hL : i < (deriveRegionState l).length := by
    simpa [deriveRegionState] using h
  rw [List.getD_eq_getElem _ _ hL, List.getD_eq_getElem _ _ h]
  refine ⟨?_, ?_⟩ <;>
    simp only [deriveRegionState, List.getElem_map]

/-- Witness for `clean_field_mutates_iso_region` on `exAJC10` at row 0. -/
theorem clean_field_mutates_iso_region_witness :
    ((deriveRegionState exAJC10).getD 0 default).iso_region_state =
      ((deriveRegionState exAJC10).getD 0 default).iso_region ∧
    ((deriveRegionState exAJC10).getD 0 default).iso_region =
      clean_field extractDashSeg ((exAJC10.getD 0 default).iso_region) :=
  clean_field_mutates_iso_region exAJC10 0 (by decide)
